import Mathlib

/-!
Shallow embedding of the authentication core of the repository
(user lockout, login with two-factor verification, session refresh-token
rotation, device revocation, risk scoring, password strength, and the
enumeration-safe responses).  Timestamps are modelled as natural numbers
of milliseconds since the epoch; external collaborators (bcrypt password
comparison, TOTP verification, JWT signature verification, email
delivery) are modelled as boolean oracles, exactly as the control flow
of the source branches on their results.
-/

namespace AuthCore

/-- Milliseconds since the epoch, the time base of the source. -/
abbrev Millis := Nat

/-! ### Lockout state (User model, `part_005`) -/

/-- Lockout-relevant fields of the User document: `loginAttempts`,
`lockUntil` and `isLocked`. -/
structure LockState where
  loginAttempts : Nat
  lockUntil : Option Millis
  isLocked : Bool
deriving DecidableEq, Repr

/-- Default of `MAX_LOGIN_ATTEMPTS`. -/
def maxLoginAttempts : Nat := 5

/-- Default of `LOCKOUT_TIME` (30 minutes) converted to milliseconds. -/
def lockoutTimeMs : Nat := 30 * 60 * 1000

/-- The guard `this.lockUntil && this.lockUntil < new Date()` of
`incrementLoginAttempts`: a lock exists and lies strictly in the past. -/
def lockExpired (u : LockState) (now : Millis) : Bool :=
  match u.lockUntil with
  | some t => decide (t < now)
  | none => false

/-- `isAccountLocked`: `!!(this.lockUntil && this.lockUntil > new Date())`. -/
def isAccountLocked (u : LockState) (now : Millis) : Bool :=
  match u.lockUntil with
  | some t => decide (now < t)
  | none => false

/-- `incrementLoginAttempts` of the User model: if an existing lock has
expired, reset the counter to 1 and unset both lock fields; otherwise
increment the counter, and when the post-increment count reaches the
threshold on an account whose `isLocked` flag is clear, set
`lockUntil = now + lockoutTimeMs` and raise the flag. -/
def incrementLoginAttempts (u : LockState) (now : Millis) : LockState :=
  if lockExpired u now then
    { loginAttempts := 1, lockUntil := none, isLocked := false }
  else if maxLoginAttempts ≤ u.loginAttempts + 1 ∧ u.isLocked = false then
    { loginAttempts := u.loginAttempts + 1
      lockUntil := some (now + lockoutTimeMs)
      isLocked := true }
  else
    { u with loginAttempts := u.loginAttempts + 1 }

/-- `resetLoginAttempts` of the User model: zero the counter and unset
both lock fields. -/
def resetLoginAttempts : LockState :=
  { loginAttempts := 0, lockUntil := none, isLocked := false }

/-- A fresh account: no failures recorded, no lock. -/
def freshLock : LockState :=
  { loginAttempts := 0, lockUntil := none, isLocked := false }

/-- Folding a list of failure times through `incrementLoginAttempts`. -/
def recordFailures (u : LockState) (times : List Millis) : LockState :=
  times.foldl incrementLoginAttempts u

/-! ### Login with two-factor verification (sessionController `login`)

The bcrypt comparison and the TOTP verification are external calls; the
control flow of the source branches on their boolean results, which the
model takes as the oracle inputs `passwordValid` and `totpValid`. -/

/-- The fields of a User document that `login` reads or writes. -/
structure AUser where
  lock : LockState
  twoFactorEnabled : Bool
  backupCodes : Option (List String)
  lastLogin : Option Millis
  lastLoginIP : Option String
deriving DecidableEq, Repr

/-- Caller-visible outcome of `login` (the locked / invalid-password /
requires-2FA / invalid-2FA / success responses of the controller, with
the internal `backupCodeUsed` flag of the success path made explicit). -/
inductive LoginOutcome where
  | accountLocked
  | invalidPassword
  | requiresTwoFactor
  | invalidTwoFactor
  | success (viaBackupCode : Bool)
deriving DecidableEq, Repr

/-- The successful tail of `login`: `resetLoginAttempts` and the
last-login bookkeeping. -/
def loginSuccess (u : AUser) (now : Millis) (ip : String) : AUser :=
  { u with lock := resetLoginAttempts, lastLogin := some now, lastLoginIP := some ip }

/-- `login` of the session controller: reject when the account is locked;
on a wrong password run `incrementLoginAttempts`; with two-factor enabled
demand a token, try TOTP first and fall back to a backup code, splicing a
matched code out of the stored list; on success reset the lockout state. -/
def login (u : AUser) (passwordValid : Bool) (twoFactorToken : Option String)
    (totpValid : Bool) (now : Millis) (ip : String) : AUser × LoginOutcome :=
  if isAccountLocked u.lock now then (u, .accountLocked)
  else if passwordValid = false then
    ({ u with lock := incrementLoginAttempts u.lock now }, .invalidPassword)
  else if u.twoFactorEnabled then
    match twoFactorToken with
    | none => (u, .requiresTwoFactor)
    | some t =>
      if totpValid then (loginSuccess u now ip, .success false)
      else
        match u.backupCodes with
        | some codes =>
          if t ∈ codes then
            (loginSuccess { u with backupCodes := some (codes.erase t) } now ip,
              .success true)
          else (u, .invalidTwoFactor)
        | none => (u, .invalidTwoFactor)
  else (loginSuccess u now ip, .success false)

/-- One login request: the token supplied and the oracle results. -/
structure LoginInput where
  passwordValid : Bool
  twoFactorToken : Option String
  totpValid : Bool
  now : Millis
  ip : String
deriving DecidableEq, Repr

/-- State reached after a sequence of login requests. -/
def loginMany (u : AUser) (inputs : List LoginInput) : AUser :=
  inputs.foldl
    (fun v i => (login v i.passwordValid i.twoFactorToken i.totpValid i.now i.ip).1) u

/-- The string `c` is among the stored backup codes of `u`. -/
def hasBackupCode (u : AUser) (c : String) : Prop :=
  ∃ codes, u.backupCodes = some codes ∧ c ∈ codes

/-- A login either leaves the stored backup codes untouched or splices
one matched code out of them. -/
lemma login_backupCodes_cases (u : AUser) (pv : Bool) (tok : Option String)
    (tv : Bool) (now : Millis) (ip : String) :
    (login u pv tok tv now ip).1.backupCodes = u.backupCodes ∨
    ∃ codes t, u.backupCodes = some codes ∧
      (login u pv tok tv now ip).1.backupCodes = some (codes.erase t) := by
  by_cases hl : isAccountLocked u.lock now = true
  · left; simp [login, hl]
  · by_cases hp : pv = false
    · left; simp [login, hl, hp]
    · by_cases h2 : u.twoFactorEnabled = true
      · cases tok with
        | none => left; simp [login, hl, hp, h2]
        | some t =>
          by_cases htv : tv = true
          · left; simp [login, loginSuccess, hl, hp, h2, htv]
          · rcases hbc : u.backupCodes with _ | codes
            · left; simp [login, hl, hp, h2, htv, hbc]
            · by_cases hmem : t ∈ codes
              · exact Or.inr ⟨codes, t, rfl,
                  by simp [login, loginSuccess, hl, hp, h2, htv, hbc, hmem]⟩
              · left; simp [login, hl, hp, h2, htv, hbc, hmem]
      · left; simp [login, loginSuccess, hl, hp, h2]

/-- A value absent from the backup codes stays absent across one login. -/
lemma login_not_backup_step (u : AUser) (c : String) (pv : Bool)
    (tok : Option String) (tv : Bool) (now : Millis) (ip : String)
    (h : ¬ hasBackupCode u c) : ¬ hasBackupCode (login u pv tok tv now ip).1 c := by
  intro hc
  rcases hc with ⟨cs, hcs, hmem⟩
  rcases login_backupCodes_cases u pv tok tv now ip with heq | ⟨codes, t, hu, heq⟩
  · rw [heq] at hcs
    exact h ⟨cs, hcs, hmem⟩
  · rw [heq] at hcs
    cases hcs
    exact h ⟨codes, hu, List.mem_of_mem_erase hmem⟩

/-- A value absent from the backup codes stays absent across any
sequence of logins. -/
lemma loginMany_not_backup (c : String) (inputs : List LoginInput) :
    ∀ u : AUser, ¬ hasBackupCode u c → ¬ hasBackupCode (loginMany u inputs) c := by
  induction inputs with
  | nil => intro u h; exact h
  | cons i rest ih =>
    intro u h
    exact ih _ (login_not_backup_step u c i.passwordValid i.twoFactorToken
      i.totpValid i.now i.ip h)

/-- A login is accepted via a backup code only if the supplied value is
among the stored backup codes. -/
lemma login_viaBackup_requires_mem (u : AUser) (c : String) (pv : Bool)
    (tv : Bool) (now : Millis) (ip : String)
    (h : (login u pv (some c) tv now ip).2 = .success true) : hasBackupCode u c := by
  by_cases hl : isAccountLocked u.lock now = true
  · simp [login, hl] at h
  · by_cases hp : pv = false
    · simp [login, hl, hp] at h
    · by_cases h2 : u.twoFactorEnabled = true
      · by_cases htv : tv = true
        · simp [login, hl, hp, h2, htv] at h
        · rcases hbc : u.backupCodes with _ | codes
          · simp [login, hl, hp, h2, htv, hbc] at h
          · by_cases hmem : c ∈ codes
            · exact ⟨codes, hbc, hmem⟩
            · simp [login, hl, hp, h2, htv, hbc, hmem] at h
      · simp [login, hl, hp, h2] at h

end AuthCore

namespace AuthCore

/-- Five recorded failures from a fresh account evaluate to a locked state. -/
lemma recordFailures_five (t1 t2 t3 t4 t5 : Millis) :
    recordFailures freshLock [t1, t2, t3, t4, t5] =
      { loginAttempts := 5, lockUntil := some (t5 + 30 * 60 * 1000), isLocked := true } := by
  simp [recordFailures, incrementLoginAttempts, lockExpired, maxLoginAttempts,
    lockoutTimeMs, freshLock]

/-- C1: recording a failed login follows the lockout algorithm: an expired
lock resets the counter to 1 and clears the lock fields; otherwise the
counter is incremented; reaching 5 on an unlocked account sets
`lockUntil = now + 30min` and the flag; five consecutive failures from a
fresh account leave it locked at the time of the fifth failure; and a
further failure after that lock expires resets the counter to 1. -/
theorem C1_lockout_algorithm :
    (∀ u : LockState, ∀ now : Millis, lockExpired u now = true →
      incrementLoginAttempts u now =
        { loginAttempts := 1, lockUntil := none, isLocked := false }) ∧
    (∀ u : LockState, ∀ now : Millis, lockExpired u now = false →
      (incrementLoginAttempts u now).loginAttempts = u.loginAttempts + 1) ∧
    (∀ u : LockState, ∀ now : Millis, lockExpired u now = false →
      u.loginAttempts + 1 = 5 → u.isLocked = false →
      (incrementLoginAttempts u now).lockUntil = some (now + 30 * 60 * 1000) ∧
      (incrementLoginAttempts u now).isLocked = true) ∧
    (∀ t1 t2 t3 t4 t5 : Millis,
      isAccountLocked (recordFailures freshLock [t1, t2, t3, t4, t5]) t5 = true ∧
      (recordFailures freshLock [t1, t2, t3, t4, t5]).lockUntil =
        some (t5 + 30 * 60 * 1000)) ∧
    (∀ t1 t2 t3 t4 t5 t6 : Millis, t5 + 30 * 60 * 1000 < t6 →
      incrementLoginAttempts (recordFailures freshLock [t1, t2, t3, t4, t5]) t6 =
        { loginAttempts := 1, lockUntil := none, isLocked := false }) := by
  refine ⟨?_, ?_, ?_, ?_, ?_⟩
  · intro u now h
    simp [incrementLoginAttempts, h]
  · intro u now h
    simp only [incrementLoginAttempts, h, Bool.false_eq_true, if_false]
    split <;> rfl
  · intro u now h h5 hflag
    simp only [incrementLoginAttempts, h, Bool.false_eq_true, if_false]
    rw [if_pos]
    · exact ⟨rfl, rfl⟩
    · exact ⟨by rw [h5]; exact Nat.le_refl 5, hflag⟩
  · intro t1 t2 t3 t4 t5
    rw [recordFailures_five]
    exact ⟨by simp [isAccountLocked], rfl⟩
  · intro t1 t2 t3 t4 t5 t6 h
    rw [recordFailures_five]
    have hexp : lockExpired
        { loginAttempts := 5, lockUntil := some (t5 + 30 * 60 * 1000), isLocked := true }
        t6 = true := by
      show decide (t5 + 30 * 60 * 1000 < t6) = true
      exact decide_eq_true h
    simp [incrementLoginAttempts, hexp]

/-- C3: a backup code accepted at login is removed from the stored set,
and no later login is ever accepted via the same value again: after the
accepting login the value is gone, it stays gone across any sequence of
further logins, and a login supplying it is never again accepted via a
backup code. -/
theorem C3_backup_code_single_use
    (u : AUser) (codes : List String) (c : String) (now : Millis) (ip : String)
    (h2fa : u.twoFactorEnabled = true)
    (hcodes : u.backupCodes = some codes) (hnd : codes.Nodup) (hc : c ∈ codes)
    (hnotlocked : isAccountLocked u.lock now = false) :
    (login u true (some c) false now ip).2 = .success true ∧
    (login u true (some c) false now ip).1.backupCodes = some (codes.erase c) ∧
    ¬ hasBackupCode (login u true (some c) false now ip).1 c ∧
    ∀ inputs : List LoginInput,
      ¬ hasBackupCode (loginMany (login u true (some c) false now ip).1 inputs) c ∧
      ∀ pv tv now2 ip2,
        (login (loginMany (login u true (some c) false now ip).1 inputs)
            pv (some c) tv now2 ip2).2 ≠ .success true := by
  have hl : ¬ isAccountLocked u.lock now = true := by
    rw [hnotlocked]; exact Bool.false_ne_true
  have hstep1 : (login u true (some c) false now ip).1.backupCodes =
      some (codes.erase c) := by
    simp [login, loginSuccess, hl, h2fa, hcodes, hc]
  have hstep2 : (login u true (some c) false now ip).2 = .success true := by
    simp [login, hl, h2fa, hcodes, hc]
  have hnot1 : ¬ hasBackupCode (login u true (some c) false now ip).1 c := by
    rintro ⟨cs, hcs, hmem⟩
    rw [hstep1] at hcs
    cases hcs
    exact hnd.not_mem_erase hmem
  refine ⟨hstep2, hstep1, hnot1, ?_⟩
  intro inputs
  have hmany := loginMany_not_backup c inputs _ hnot1
  exact ⟨hmany, fun pv tv now2 ip2 hacc =>
    hmany (login_viaBackup_requires_mem _ c pv tv now2 ip2 hacc)⟩

/-- A concrete user with two-factor authentication enabled and two
stored backup codes, used to instantiate the single-use theorem. -/
def demoUserC3 : AUser :=
  { lock := freshLock, twoFactorEnabled := true,
    backupCodes := some ["1A2B3C4D", "AABBCCDD"], lastLogin := none,
    lastLoginIP := none }

/-- Witness for C3 at a concrete two-factor user. -/
theorem C3_backup_code_single_use_witness :
    (login demoUserC3 true (some "1A2B3C4D") false 5 "1.2.3.4").2 = .success true ∧
    (login demoUserC3 true (some "1A2B3C4D") false 5 "1.2.3.4").1.backupCodes =
      some (["1A2B3C4D", "AABBCCDD"].erase "1A2B3C4D") ∧
    ¬ hasBackupCode (login demoUserC3 true (some "1A2B3C4D") false 5 "1.2.3.4").1
      "1A2B3C4D" ∧
    ∀ inputs : List LoginInput,
      ¬ hasBackupCode
        (loginMany (login demoUserC3 true (some "1A2B3C4D") false 5 "1.2.3.4").1 inputs)
        "1A2B3C4D" ∧
      ∀ pv tv now2 ip2,
        (login (loginMany (login demoUserC3 true (some "1A2B3C4D") false 5 "1.2.3.4").1
            inputs) pv (some "1A2B3C4D") tv now2 ip2).2 ≠ .success true :=
  C3_backup_code_single_use demoUserC3 ["1A2B3C4D", "AABBCCDD"] "1A2B3C4D" 5 "1.2.3.4"
    rfl rfl (by decide) (by decide) rfl

/-- A failed two-factor attempt against `u`: the account is not locked at
the request time, the password is right, TOTP verification fails, and the
supplied token (if any) is not a stored backup code. -/
def failedTwoFactorAttempt (u : AUser) (i : LoginInput) : Prop :=
  isAccountLocked u.lock i.now = false ∧ i.passwordValid = true ∧
  i.totpValid = false ∧
  (i.twoFactorToken = none ∨
    ∃ t, i.twoFactorToken = some t ∧ ¬ hasBackupCode u t)

/-- A failed two-factor attempt returns the user record unchanged. -/
lemma login_failed2fa_id (u : AUser) (i : LoginInput)
    (h2fa : u.twoFactorEnabled = true) (h : failedTwoFactorAttempt u i) :
    (login u i.passwordValid i.twoFactorToken i.totpValid i.now i.ip).1 = u := by
  obtain ⟨hnl, hpv, htv, htok⟩ := h
  have hl : ¬ isAccountLocked u.lock i.now = true := by
    rw [hnl]; exact Bool.false_ne_true
  have hp : ¬ i.passwordValid = false := by simp [hpv]
  rcases htok with hnone | ⟨t, hsome, hnb⟩
  · simp [login, hl, hp, h2fa, hnone]
  · rcases hbc : u.backupCodes with _ | codes
    · simp [login, hl, hp, h2fa, hsome, htv, hbc]
    · have hmem : ¬ t ∈ codes := fun hm => hnb ⟨codes, hbc, hm⟩
      simp [login, hl, hp, h2fa, hsome, htv, hbc, hmem]

/-- C9: with two-factor authentication enabled, a login that supplies the
right password but a missing or wrong second factor leaves the user
record — in particular `loginAttempts` and `lockUntil` — unchanged, so no
sequence of failed two-factor attempts ever locks the account; the
lockout counter is fed only by the wrong-password path. -/
theorem C9_failed_2fa_preserves_lockout
    (u : AUser) (h2fa : u.twoFactorEnabled = true) :
    (∀ now ip tv, isAccountLocked u.lock now = false →
      login u true none tv now ip = (u, .requiresTwoFactor)) ∧
    (∀ now ip t, isAccountLocked u.lock now = false → ¬ hasBackupCode u t →
      login u true (some t) false now ip = (u, .invalidTwoFactor)) ∧
    (∀ inputs : List LoginInput, (∀ i ∈ inputs, failedTwoFactorAttempt u i) →
      loginMany u inputs = u ∧
      (loginMany u inputs).lock.loginAttempts = u.lock.loginAttempts ∧
      (loginMany u inputs).lock.lockUntil = u.lock.lockUntil) ∧
    (∀ now ip, isAccountLocked u.lock now = false →
      (login u false none false now ip).1.lock = incrementLoginAttempts u.lock now) := by
  refine ⟨?_, ?_, ?_, ?_⟩
  · intro now ip tv hnl
    have hl : ¬ isAccountLocked u.lock now = true := by
      rw [hnl]; exact Bool.false_ne_true
    simp [login, hl, h2fa]
  · intro now ip t hnl hnb
    have h := login_failed2fa_id u ⟨true, some t, false, now, ip⟩ h2fa
      ⟨hnl, rfl, rfl, Or.inr ⟨t, rfl, hnb⟩⟩
    have hl : ¬ isAccountLocked u.lock now = true := by
      rw [hnl]; exact Bool.false_ne_true
    rcases hbc : u.backupCodes with _ | codes
    · simp [login, hl, h2fa, hbc]
    · have hmem : ¬ t ∈ codes := fun hm => hnb ⟨codes, hbc, hm⟩
      simp [login, hl, h2fa, hbc, hmem]
  · intro inputs
    induction inputs with
    | nil => intro _; exact ⟨rfl, rfl, rfl⟩
    | cons i rest ih =>
      intro hall
      have hstep := login_failed2fa_id u i h2fa (hall i (List.mem_cons_self i rest))
      have hrest := ih (fun j hj => hall j (List.mem_cons_of_mem i hj))
      simpa [loginMany, hstep] using hrest
  · intro now ip hnl
    have hl : ¬ isAccountLocked u.lock now = true := by
      rw [hnl]; exact Bool.false_ne_true
    simp [login, hl]

/-- A concrete two-factor user with three failures already recorded,
used to instantiate the failed-second-factor frame theorem. -/
def demoUserC9 : AUser :=
  { lock := { loginAttempts := 3, lockUntil := none, isLocked := false },
    twoFactorEnabled := true, backupCodes := some ["AABBCCDD"],
    lastLogin := none, lastLoginIP := none }

/-- Witness for C9 at a concrete two-factor user. -/
theorem C9_failed_2fa_preserves_lockout_witness :
    login demoUserC9 true none false 7 "9.9.9.9" = (demoUserC9, .requiresTwoFactor) ∧
    login demoUserC9 true (some "00000000") false 7 "9.9.9.9" =
      (demoUserC9, .invalidTwoFactor) := by
  have h := C9_failed_2fa_preserves_lockout demoUserC9 rfl
  refine ⟨h.1 7 "9.9.9.9" false rfl, h.2.1 7 "9.9.9.9" "00000000" rfl ?_⟩
  rintro ⟨cs, hcs, hmem⟩
  cases hcs
  simp at hmem

/-- Witness for C1 at concrete inputs. -/
theorem C1_lockout_algorithm_witness :
    incrementLoginAttempts { loginAttempts := 7, lockUntil := some 100, isLocked := true } 200 =
      { loginAttempts := 1, lockUntil := none, isLocked := false } ∧
    (incrementLoginAttempts { loginAttempts := 2, lockUntil := none, isLocked := false } 50).loginAttempts = 3 ∧
    ((incrementLoginAttempts { loginAttempts := 4, lockUntil := none, isLocked := false } 1000).lockUntil =
        some (1000 + 30 * 60 * 1000) ∧
      (incrementLoginAttempts { loginAttempts := 4, lockUntil := none, isLocked := false } 1000).isLocked = true) ∧
    (isAccountLocked (recordFailures freshLock [10, 20, 30, 40, 50]) 50 = true ∧
      (recordFailures freshLock [10, 20, 30, 40, 50]).lockUntil = some (50 + 30 * 60 * 1000)) ∧
    incrementLoginAttempts (recordFailures freshLock [10, 20, 30, 40, 50]) 2000000 =
      { loginAttempts := 1, lockUntil := none, isLocked := false } := by
  refine ⟨?_, ?_, ?_, ?_, ?_⟩
  · exact C1_lockout_algorithm.1 _ 200 (by decide)
  · exact C1_lockout_algorithm.2.1 _ 50 (by decide)
  · exact C1_lockout_algorithm.2.2.1 _ 1000 (by decide) (by decide) (by decide)
  · exact C1_lockout_algorithm.2.2.2.1 10 20 30 40 50
  · exact C1_lockout_algorithm.2.2.2.2 10 20 30 40 50 2000000 (by decide)

end AuthCore

namespace AuthCore

/-! ### Sessions and refresh-token rotation (sessionController
`refreshToken`, `login` session creation)

The record fields follow the Session schema (appended after the JWT
utilities in the sources): `refreshToken` carries a unique index, a new
session is active by default, and `lastActivity` defaults to the
creation time. -/

/-- The device metadata stored on sessions and parsed from a request. -/
structure DeviceInfo where
  userAgent : String
  ipAddress : String
  deviceType : String
  browser : String
  os : String
deriving DecidableEq, Repr

/-- A Session document. -/
structure Session where
  sessId : Nat
  userId : Nat
  refreshToken : String
  deviceInfo : DeviceInfo
  isActive : Bool
  lastActivity : Millis
  expiresAt : Millis
  createdAt : Millis
deriving DecidableEq, Repr

/-- The session lookup of the refresh handler (filter: the token itself,
`isActive: true`, and `expiresAt` strictly greater than now): an active,
unexpired session holding the token. -/
def findActiveByRefreshToken (store : List Session) (token : String)
    (now : Millis) : Option Session :=
  store.find? (fun s => s.refreshToken == token && s.isActive &&
    decide (now < s.expiresAt))

/-- Caller-visible outcome of the refresh handler. -/
inductive RefreshOutcome where
  | invalidJwt
  | sessionInvalid
  | userNotFound
  | accountLocked
  | ok
deriving DecidableEq, Repr

/-- One refresh request: the supplied token, the freshly signed
replacement, and the oracle results of JWT verification and the user
lookup. -/
structure RefreshInput where
  jwtValid : Bool
  oldToken : String
  newToken : String
  userFound : Bool
  userLock : LockState
  now : Millis
deriving Repr

/-- The `session.save()` of the refresh handler: the found session gets
the new refresh token and a bumped `lastActivity`; nothing else moves. -/
def rotateSession (sid : Nat) (newToken : String) (now : Millis)
    (s : Session) : Session :=
  if s.sessId = sid then { s with refreshToken := newToken, lastActivity := now }
  else s

/-- The refresh handler: verify the JWT, look up an active unexpired
session by the token, re-check the user and its lockout, then rotate the
stored refresh token. -/
def refreshTokenOp (store : List Session) (i : RefreshInput) :
    List Session × RefreshOutcome :=
  if i.jwtValid = false then (store, .invalidJwt)
  else
    match findActiveByRefreshToken store i.oldToken i.now with
    | none => (store, .sessionInvalid)
    | some s =>
      if i.userFound = false then (store, .userNotFound)
      else if isAccountLocked i.userLock i.now then (store, .accountLocked)
      else (store.map (rotateSession s.sessId i.newToken i.now), .ok)

/-- Store reached after a sequence of refresh requests. -/
def refreshMany (store : List Session) (inputs : List RefreshInput) :
    List Session :=
  inputs.foldl (fun st i => (refreshTokenOp st i).1) store

/-- The session created at a successful login: active, expiring 7 days
after creation. -/
def newLoginSession (sid uid : Nat) (tok : String) (di : DeviceInfo)
    (now : Millis) : Session :=
  { sessId := sid, userId := uid, refreshToken := tok, deviceInfo := di,
    isActive := true, lastActivity := now,
    expiresAt := now + 7 * 24 * 60 * 60 * 1000, createdAt := now }

/-- Soundness of the active-session lookup: a hit is a stored session
holding the token, active, and not yet expired. -/
lemma findActive_sound {store : List Session} {token : String} {now : Millis}
    {s : Session} (h : findActiveByRefreshToken store token now = some s) :
    s ∈ store ∧ s.refreshToken = token ∧ s.isActive = true ∧ now < s.expiresAt := by
  have hmem := List.mem_of_find?_eq_some h
  have hp := List.find?_some h
  simp only [Bool.and_eq_true, beq_iff_eq, decide_eq_true_eq] at hp
  exact ⟨hmem, hp.1.1, hp.1.2, hp.2⟩

/-- Anatomy of a successful refresh: the JWT verified, a session was
found, and the new store is the pointwise rotation of the old one. -/
lemma refreshTokenOp_ok {store store' : List Session} {i : RefreshInput}
    (h : refreshTokenOp store i = (store', .ok)) :
    ∃ s, findActiveByRefreshToken store i.oldToken i.now = some s ∧
      store' = store.map (rotateSession s.sessId i.newToken i.now) := by
  by_cases hj : i.jwtValid = false
  · rw [refreshTokenOp, if_pos hj] at h
    exact absurd (congrArg Prod.snd h) (by simp)
  · rcases hfind : findActiveByRefreshToken store i.oldToken i.now with _ | s
    · simp only [refreshTokenOp, if_neg hj, hfind] at h
      exact absurd (congrArg Prod.snd h) (by simp)
    · simp only [refreshTokenOp, if_neg hj, hfind] at h
      by_cases huf : i.userFound = false
      · rw [if_pos huf] at h
        exact absurd (congrArg Prod.snd h) (by simp)
      · rw [if_neg huf] at h
        by_cases hlk : isAccountLocked i.userLock i.now = true
        · rw [if_pos hlk] at h
          exact absurd (congrArg Prod.snd h) (by simp)
        · rw [if_neg hlk] at h
          exact ⟨s, rfl, (congrArg Prod.fst h).symm⟩

/-- After a successful refresh with a fresh token value, no stored
session holds the old token any more (given the uniqueness of stored
refresh tokens). -/
lemma refresh_removes_old_token {store store' : List Session} {i : RefreshInput}
    (hnd : (store.map (fun s => s.refreshToken)).Nodup)
    (hne : i.newToken ≠ i.oldToken)
    (h : refreshTokenOp store i = (store', .ok)) :
    ∀ t ∈ store', t.refreshToken ≠ i.oldToken := by
  obtain ⟨s, hfind, hmap⟩ := refreshTokenOp_ok h
  obtain ⟨hsmem, hstok, _, _⟩ := findActive_sound hfind
  intro t ht
  rw [hmap] at ht
  obtain ⟨t0, ht0, hrot⟩ := List.mem_map.mp ht
  by_cases hid : t0.sessId = s.sessId
  · rw [← hrot, rotateSession, if_pos hid]
    exact hne
  · rw [← hrot, rotateSession, if_neg hid]
    intro htok
    exact hid (congrArg Session.sessId
      (List.inj_on_of_nodup_map hnd ht0 hsmem (htok.trans hstok.symm)))

end AuthCore

namespace AuthCore

/-- Agreement on every session field other than the refresh-token value
and the last-activity timestamp. -/
def fieldsEq (a b : Session) : Prop :=
  a.sessId = b.sessId ∧ a.userId = b.userId ∧ a.deviceInfo = b.deviceInfo ∧
  a.isActive = b.isActive ∧ a.expiresAt = b.expiresAt ∧ a.createdAt = b.createdAt

/-- Rotation touches only the refresh token and the last activity. -/
lemma rotateSession_fieldsEq (sid : Nat) (tok : String) (now : Millis)
    (s : Session) : fieldsEq (rotateSession sid tok now s) s := by
  unfold rotateSession fieldsEq
  split
  · exact ⟨rfl, rfl, rfl, rfl, rfl, rfl⟩
  · exact ⟨rfl, rfl, rfl, rfl, rfl, rfl⟩

/-- The store after one refresh request is either unchanged or the
pointwise rotation of one session. -/
lemma refreshStep_cases (store : List Session) (i : RefreshInput) :
    (refreshTokenOp store i).1 = store ∨
    ∃ sid, (refreshTokenOp store i).1 =
      store.map (rotateSession sid i.newToken i.now) := by
  by_cases hj : i.jwtValid = false
  · left; simp [refreshTokenOp, hj]
  · rcases hfind : findActiveByRefreshToken store i.oldToken i.now with _ | s
    · left; simp [refreshTokenOp, hj, hfind]
    · by_cases huf : i.userFound = false
      · left; simp [refreshTokenOp, hj, hfind, huf]
      · by_cases hlk : isAccountLocked i.userLock i.now = true
        · left; simp [refreshTokenOp, hj, hfind, huf, hlk]
        · right
          exact ⟨s.sessId, by simp [refreshTokenOp, hj, hfind, huf, hlk]⟩

/-- One refresh request preserves, at every position of the store, every
field other than the refresh token and the last activity. -/
lemma refreshStep_frame (store : List Session) (i : RefreshInput) :
    ((refreshTokenOp store i).1).length = store.length ∧
    ∀ k (hk : k < store.length) (hk2 : k < ((refreshTokenOp store i).1).length),
      fieldsEq (((refreshTokenOp store i).1).get ⟨k, hk2⟩) (store.get ⟨k, hk⟩) := by
  rcases refreshStep_cases store i with heq | ⟨sid, heq⟩
  · rw [heq]
    exact ⟨rfl, fun k hk hk2 => ⟨rfl, rfl, rfl, rfl, rfl, rfl⟩⟩
  · rw [heq]
    refine ⟨List.length_map store _, fun k hk hk2 => ?_⟩
    have : (store.map (rotateSession sid i.newToken i.now)).get ⟨k, hk2⟩ =
        rotateSession sid i.newToken i.now (store.get ⟨k, hk⟩) := by
      simp [List.getElem_map]
    rw [this]
    exact rotateSession_fieldsEq sid i.newToken i.now (store.get ⟨k, hk⟩)

/-- The frame of `refreshStep_frame` composed over a request sequence. -/
lemma refreshMany_frame (inputs : List RefreshInput) :
    ∀ store : List Session,
      (refreshMany store inputs).length = store.length ∧
      ∀ k (hk : k < store.length) (hk2 : k < (refreshMany store inputs).length),
        fieldsEq ((refreshMany store inputs).get ⟨k, hk2⟩) (store.get ⟨k, hk⟩) := by
  induction inputs with
  | nil => exact fun store => ⟨rfl, fun k hk hk2 => ⟨rfl, rfl, rfl, rfl, rfl, rfl⟩⟩
  | cons i rest ih =>
    intro store
    have hstep := refreshStep_frame store i
    have hmid := ih ((refreshTokenOp store i).1)
    have hlen : (refreshMany store (i :: rest)).length = store.length := by
      rw [show refreshMany store (i :: rest) =
        refreshMany ((refreshTokenOp store i).1) rest from rfl, hmid.1, hstep.1]
    refine ⟨hlen, fun k hk hk2 => ?_⟩
    have hkmid : k < ((refreshTokenOp store i).1).length := by
      rw [hstep.1]; exact hk
    have h1 := hmid.2 k hkmid hk2
    have h2 := hstep.2 k hk hkmid
    obtain ⟨a1, a2, a3, a4, a5, a6⟩ := h1
    obtain ⟨b1, b2, b3, b4, b5, b6⟩ := h2
    exact ⟨a1.trans b1, a2.trans b2, a3.trans b3, a4.trans b4,
      a5.trans b5, a6.trans b6⟩

end AuthCore

namespace AuthCore

/-- C2: a successful refresh rotates the stored token, after which a
lookup by the old token value finds nothing at any time and a further
refresh presenting the old token never succeeds; and the active-session
lookup only ever returns sessions that are active and not yet expired. -/
theorem C2_rotation_invalidates_old_token :
    (∀ store : List Session, ∀ i : RefreshInput, ∀ store' : List Session,
      (store.map (fun s => s.refreshToken)).Nodup → i.newToken ≠ i.oldToken →
      refreshTokenOp store i = (store', .ok) →
      (∀ now2, findActiveByRefreshToken store' i.oldToken now2 = none) ∧
      ∀ j : RefreshInput, j.oldToken = i.oldToken →
        (refreshTokenOp store' j).2 ≠ .ok) ∧
    (∀ store : List Session, ∀ token now s,
      findActiveByRefreshToken store token now = some s →
      s.isActive = true ∧ now < s.expiresAt ∧ s.refreshToken = token ∧ s ∈ store) := by
  constructor
  · intro store i store' hnd hne hop
    have hgone := refresh_removes_old_token hnd hne hop
    have hnonef : ∀ now2, findActiveByRefreshToken store' i.oldToken now2 = none := by
      intro now2
      apply List.find?_eq_none.mpr
      intro t ht hp
      simp only [Bool.and_eq_true, beq_iff_eq, decide_eq_true_eq] at hp
      exact hgone t ht hp.1.1
    refine ⟨hnonef, fun j hj => ?_⟩
    by_cases hjw : j.jwtValid = false
    · simp [refreshTokenOp, hjw]
    · have : findActiveByRefreshToken store' j.oldToken j.now = none := by
        rw [hj]; exact hnonef j.now
      simp [refreshTokenOp, hjw, this]
  · intro store token now s h
    obtain ⟨hmem, htok, hact, hexp⟩ := findActive_sound h
    exact ⟨hact, hexp, htok, hmem⟩

/-- A concrete device for the session witnesses. -/
def demoDevice : DeviceInfo :=
  { userAgent := "Mozilla Windows Chrome", ipAddress := "1.2.3.4",
    deviceType := "desktop", browser := "Chrome", os := "Windows" }

/-- A concrete active session holding the token to be rotated. -/
def demoSession : Session :=
  { sessId := 1, userId := 10, refreshToken := "oldtok",
    deviceInfo := demoDevice, isActive := true, lastActivity := 0,
    expiresAt := 100, createdAt := 0 }

/-- A concrete refresh request rotating `oldtok` to `newtok`. -/
def demoRefresh : RefreshInput :=
  { jwtValid := true, oldToken := "oldtok", newToken := "newtok",
    userFound := true, userLock := freshLock, now := 50 }

/-- Witness for C2 at a one-session store. -/
theorem C2_rotation_invalidates_old_token_witness :
    ((∀ now2, findActiveByRefreshToken (refreshTokenOp [demoSession] demoRefresh).1
        demoRefresh.oldToken now2 = none) ∧
      ∀ j : RefreshInput, j.oldToken = demoRefresh.oldToken →
        (refreshTokenOp (refreshTokenOp [demoSession] demoRefresh).1 j).2 ≠ .ok) ∧
    (demoSession.isActive = true ∧ 50 < demoSession.expiresAt ∧
      demoSession.refreshToken = "oldtok" ∧ demoSession ∈ [demoSession]) := by
  constructor
  · exact C2_rotation_invalidates_old_token.1 [demoSession] demoRefresh
      (refreshTokenOp [demoSession] demoRefresh).1
      (by decide) (by decide) rfl
  · exact C2_rotation_invalidates_old_token.2 [demoSession] "oldtok" 50 demoSession
      (by decide)

/-- C10: a refresh changes only the stored refresh-token value and the
last-activity timestamp of sessions — in particular `expiresAt`, the
owner, the active flag, the device metadata and the creation time are
untouched, across any sequence of refreshes — while the session created
at login expires exactly 7 days after its creation time, and the lookup
never returns a session whose expiry has passed. -/
theorem C10_refresh_preserves_expiry :
    (∀ store : List Session, ∀ i : RefreshInput,
      ((refreshTokenOp store i).1).length = store.length ∧
      ∀ k (hk : k < store.length) (hk2 : k < ((refreshTokenOp store i).1).length),
        fieldsEq (((refreshTokenOp store i).1).get ⟨k, hk2⟩) (store.get ⟨k, hk⟩)) ∧
    (∀ sid uid tok di now,
      (newLoginSession sid uid tok di now).expiresAt =
        (newLoginSession sid uid tok di now).createdAt + 7 * 24 * 60 * 60 * 1000) ∧
    (∀ store : List Session, ∀ inputs : List RefreshInput,
      (refreshMany store inputs).length = store.length ∧
      ∀ k (hk : k < store.length) (hk2 : k < (refreshMany store inputs).length),
        ((refreshMany store inputs).get ⟨k, hk2⟩).expiresAt =
          (store.get ⟨k, hk⟩).expiresAt) ∧
    (∀ store : List Session, ∀ token now s,
      findActiveByRefreshToken store token now = some s → now < s.expiresAt) := by
  refine ⟨refreshStep_frame, fun sid uid tok di now => rfl, ?_, ?_⟩
  · intro store inputs
    have h := refreshMany_frame inputs store
    exact ⟨h.1, fun k hk hk2 => (h.2 k hk hk2).2.2.2.2.1⟩
  · intro store token now s h
    exact (findActive_sound h).2.2.2

/-- Witness for C10 at a one-session store. -/
theorem C10_refresh_preserves_expiry_witness :
    (((refreshTokenOp [demoSession] demoRefresh).1).length = 1 ∧
      ∀ k (hk : k < [demoSession].length)
        (hk2 : k < ((refreshTokenOp [demoSession] demoRefresh).1).length),
        fieldsEq (((refreshTokenOp [demoSession] demoRefresh).1).get ⟨k, hk2⟩)
          ([demoSession].get ⟨k, hk⟩)) ∧
    (newLoginSession 1 10 "tok" demoDevice 42).expiresAt =
      (newLoginSession 1 10 "tok" demoDevice 42).createdAt + 7 * 24 * 60 * 60 * 1000 ∧
    50 < demoSession.expiresAt := by
  refine ⟨⟨?_, ?_⟩, C10_refresh_preserves_expiry.2.1 1 10 "tok" demoDevice 42, ?_⟩
  · exact (C10_refresh_preserves_expiry.1 [demoSession] demoRefresh).1
  · exact (C10_refresh_preserves_expiry.1 [demoSession] demoRefresh).2
  · exact C10_refresh_preserves_expiry.2.2.2 [demoSession] "oldtok" 50 demoSession
      (by decide)

end AuthCore

namespace AuthCore

/-! ### Password strength (utils/passwordStrength.ts)

The requirement booleans and the score are modelled exactly; the
feedback strings of the source are output-only text and are not used by
any property here. -/

/-- Band names of the password-strength result. -/
inductive Strength where
  | weak
  | fair
  | good
  | strong
  | veryStrong
deriving DecidableEq, Repr

/-- The regex class `[A-Z]` applied to one character. -/
def isUpperChar (c : Char) : Bool := decide ('A' ≤ c ∧ c ≤ 'Z')

/-- The regex class `[a-z]` applied to one character. -/
def isLowerChar (c : Char) : Bool := decide ('a' ≤ c ∧ c ≤ 'z')

/-- The regex class of digits applied to one character. -/
def isDigitChar (c : Char) : Bool := decide ('0' ≤ c ∧ c ≤ '9')

/-- The character class of the special-character regex of the source. -/
def specialChars : List Char :=
  ['!', '@', '#', '$', '%', '^', '&', '*', '(', ')', '_', '+', '-', '=',
   '[', ']', '\x7b', '\x7d', ';', '\'', ':', '"', '\\', '|', ',', '.', '<',
   '>', '/', '?']

/-- Membership in the special-character class. -/
def isSpecialChar (c : Char) : Bool := specialChars.contains c

/-- The denylist of `isCommonPassword`. -/
def commonPasswords : List String :=
  ["password", "12345678", "123456789", "1234567890", "qwerty", "abc123",
   "password123", "admin", "letmein", "welcome", "monkey", "1234567",
   "sunshine", "princess", "football", "iloveyou"]

/-- `isCommonPassword`: the candidate, lowercased, is in the denylist
(the JS `toLowerCase` agrees with `Char.toLower` on the ASCII entries
of the denylist; the comparison runs on the character lists). -/
def isCommonPassword (p : String) : Bool :=
  (commonPasswords.map String.toList).contains (p.toList.map Char.toLower)

/-- The band chain of the source: weak below 40, fair below 60, good
below 80, strong below 90, else very strong. -/
def bandOf (n : Nat) : Strength :=
  if n < 40 then .weak
  else if n < 60 then .fair
  else if n < 80 then .good
  else if n < 90 then .strong
  else .veryStrong

/-- Result record of `checkPasswordStrength`: score, band and the
requirement breakdown. -/
structure PasswordStrength where
  score : Nat
  strength : Strength
  reqLength : Bool
  reqUppercase : Bool
  reqLowercase : Bool
  reqNumber : Bool
  reqSpecial : Bool
  reqCommon : Bool
deriving DecidableEq, Repr

/-- `checkPasswordStrength`: length bonuses at 8, 12 and 16 characters,
15 points per character class present, 10 points for not being a common
password, banded by `bandOf`. -/
def checkPasswordStrength (p : String) : PasswordStrength :=
  let len := p.length
  let reqUppercase := p.toList.any isUpperChar
  let reqLowercase := p.toList.any isLowerChar
  let reqNumber := p.toList.any isDigitChar
  let reqSpecial := p.toList.any isSpecialChar
  let reqCommon := !isCommonPassword p
  let score :=
    (if 8 ≤ len then 20 else 0) + (if 12 ≤ len then 10 else 0) +
    (if 16 ≤ len then 10 else 0) +
    (if reqUppercase then 15 else 0) + (if reqLowercase then 15 else 0) +
    (if reqNumber then 15 else 0) + (if reqSpecial then 15 else 0) +
    (if reqCommon then 10 else 0)
  { score := score, strength := bandOf score, reqLength := decide (8 ≤ len),
    reqUppercase := reqUppercase, reqLowercase := reqLowercase,
    reqNumber := reqNumber, reqSpecial := reqSpecial, reqCommon := reqCommon }

end AuthCore

namespace AuthCore

/-- C5: the score is the stated sum of length, character-class and
denylist bonuses; the bands cut at 40, 60, 80 and 90; and on the two
stated probes the source yields weak for a common 8-character password
and at least strong for the long mixed-class one. -/
theorem C5_password_strength_scoring :
    (∀ p : String,
      (checkPasswordStrength p).score =
        (if 8 ≤ p.length then 20 else 0) + (if 12 ≤ p.length then 10 else 0) +
        (if 16 ≤ p.length then 10 else 0) +
        (if p.toList.any isUpperChar then 15 else 0) +
        (if p.toList.any isLowerChar then 15 else 0) +
        (if p.toList.any isDigitChar then 15 else 0) +
        (if p.toList.any isSpecialChar then 15 else 0) +
        (if isCommonPassword p then 0 else 10)) ∧
    (∀ p : String,
      (checkPasswordStrength p).strength = bandOf (checkPasswordStrength p).score) ∧
    (∀ n : Nat,
      (bandOf n = .weak ↔ n < 40) ∧
      (bandOf n = .fair ↔ 40 ≤ n ∧ n < 60) ∧
      (bandOf n = .good ↔ 60 ≤ n ∧ n < 80) ∧
      (bandOf n = .strong ↔ 80 ≤ n ∧ n < 90) ∧
      (bandOf n = .veryStrong ↔ 90 ≤ n)) ∧
    (checkPasswordStrength "password").strength = .weak ∧
    ((checkPasswordStrength "Tr0ub4dor&3!XY").strength = .strong ∨
      (checkPasswordStrength "Tr0ub4dor&3!XY").strength = .veryStrong) := by
  refine ⟨?_, fun p => rfl, ?_, by decide, ?_⟩
  · intro p
    by_cases hc : isCommonPassword p = true
    · simp [checkPasswordStrength, hc]
    · simp [checkPasswordStrength, hc]
  · intro n
    unfold bandOf
    refine ⟨?_, ?_, ?_, ?_, ?_⟩ <;> (split_ifs <;> simp <;> omega)
  · right
    decide

end AuthCore

namespace AuthCore

/-! ### Risk engine (utils/suspiciousActivity.ts, `part_003`)

The security log is modelled as the list of stored events; the Mongo
queries become filters, a sort by `createdAt` descending and a limit. -/

/-- A SecurityLog document (the fields the risk engine reads). -/
structure SecEvent where
  userId : Nat
  action : String
  status : String
  ipAddress : String
  userAgent : String
  country : Option String
  createdAt : Millis
deriving DecidableEq, Repr

/-- Insertion into a list already sorted by `createdAt` descending. -/
def insertByTimeDesc (e : SecEvent) : List SecEvent → List SecEvent
  | [] => [e]
  | f :: fs =>
    if f.createdAt < e.createdAt then e :: f :: fs else f :: insertByTimeDesc e fs

/-- The `sort createdAt descending` of the queries. -/
def sortByTimeDesc (l : List SecEvent) : List SecEvent :=
  l.foldr insertByTimeDesc []

/-- Result of a suspicious-activity check. -/
structure Check where
  isSuspicious : Bool
  riskScore : Nat
deriving DecidableEq, Repr

/-- Count of failed logins of the user in the trailing 15 minutes. -/
def loginRecentFailures (log : List SecEvent) (uid : Nat) (now : Millis) : Nat :=
  (log.filter (fun e => e.userId == uid && e.action == "login" &&
    e.status == "failure" && decide (now - 15 * 60 * 1000 ≤ e.createdAt))).length

/-- The query feeding the known-IP, known-agent, country and hour checks:
successful logins of the user in the trailing 30 days, newest first,
limited to 10. -/
def recentSuccessfulLogins (log : List SecEvent) (uid : Nat) (now : Millis) :
    List SecEvent :=
  (sortByTimeDesc (log.filter (fun e => e.userId == uid && e.action == "login" &&
    e.status == "success" &&
    decide (now - 30 * 24 * 60 * 60 * 1000 ≤ e.createdAt)))).take 10

/-- Hour of day of a timestamp (the `getHours` of the source, taken in
UTC; no property here depends on the timezone offset). -/
def hourOfDay (t : Millis) : Nat := t / (60 * 60 * 1000) % 24

/-- The unusual-hour test: with more than five recent logins, the mean
login hour differs from the current hour by more than 6.  Stated over
the integers by multiplying through by the list length; the source
computes the mean in floating point. -/
def unusualHour (recents : List SecEvent) (now : Millis) : Bool :=
  decide (5 < recents.length ∧
    6 * recents.length <
      Nat.dist (hourOfDay now * recents.length)
        ((recents.map (fun e => hourOfDay e.createdAt)).sum))

/-- The 30-point bonus for at least 3 recent failed logins. -/
def loginFailureBonus (log : List SecEvent) (uid : Nat) (now : Millis) : Nat :=
  if 3 ≤ loginRecentFailures log uid now then 30 else 0

/-- The 25-point bonus for an IP absent from the recent successful
logins (only with that history non-empty). -/
def loginNewIPBonus (log : List SecEvent) (uid : Nat) (now : Millis)
    (ip : String) : Nat :=
  if ip ∉ (recentSuccessfulLogins log uid now).map (fun e => e.ipAddress) ∧
      0 < (recentSuccessfulLogins log uid now).length then 25 else 0

/-- The 20-point bonus for a user agent absent from the recent
successful logins (only with that history non-empty). -/
def loginNewAgentBonus (log : List SecEvent) (uid : Nat) (now : Millis)
    (ua : String) : Nat :=
  if ua ∉ (recentSuccessfulLogins log uid now).map (fun e => e.userAgent) ∧
      0 < (recentSuccessfulLogins log uid now).length then 20 else 0

/-- The 30-point bonus for a resolved country absent from the countries
of the recent successful logins (only with that set non-empty). -/
def loginCountryBonus (log : List SecEvent) (uid : Nat) (now : Millis)
    (currentCountry : Option String) : Nat :=
  match currentCountry with
  | some c =>
    if c ∉ (recentSuccessfulLogins log uid now).filterMap (fun e => e.country) ∧
        0 < ((recentSuccessfulLogins log uid now).filterMap
          (fun e => e.country)).length then 30 else 0
  | none => 0

/-- The 15-point bonus of the unusual-hour test. -/
def loginHourBonus (log : List SecEvent) (uid : Nat) (now : Millis) : Nat :=
  if unusualHour (recentSuccessfulLogins log uid now) now then 15 else 0

/-- The 20-point bonus when the account is or was recently locked
(`isLocked` raised or a `lockUntil` value present). -/
def loginLockBonus (lock : LockState) : Nat :=
  if lock.isLocked = true ∨ lock.lockUntil ≠ none then 20 else 0

/-- `checkSuspiciousLogin`: the additive score of the six independent
checks, suspicious at 50. -/
def checkSuspiciousLogin (log : List SecEvent) (uid : Nat) (lock : LockState)
    (now : Millis) (ip ua : String) (currentCountry : Option String) : Check :=
  let score := loginFailureBonus log uid now + loginNewIPBonus log uid now ip +
    loginNewAgentBonus log uid now ua + loginCountryBonus log uid now currentCountry +
    loginHourBonus log uid now + loginLockBonus lock
  { isSuspicious := decide (50 ≤ score), riskScore := score }

/-- Stated from the words of the claim, for comparison with the source:
the IPs of the last 10 successful logins of the user over the whole
history (no 30-day window). -/
def specLast10SuccessIPs (log : List SecEvent) (uid : Nat) : List String :=
  ((sortByTimeDesc (log.filter (fun e => e.userId == uid &&
    e.action == "login" && e.status == "success"))).take 10).map
    (fun e => e.ipAddress)

end AuthCore

namespace AuthCore

/-- A history on which the claim C4 as stated fails: three fresh failed
logins, and a single successful login older than 30 days from an IP
other than the current one. -/
def exLogC4 : List SecEvent :=
  [{ userId := 1, action := "login", status := "failure", ipAddress := "5.5.5.5",
     userAgent := "ua", country := none, createdAt := 8639900000 },
   { userId := 1, action := "login", status := "failure", ipAddress := "5.5.5.5",
     userAgent := "ua", country := none, createdAt := 8639910000 },
   { userId := 1, action := "login", status := "failure", ipAddress := "5.5.5.5",
     userAgent := "ua", country := none, createdAt := 8639920000 },
   { userId := 1, action := "login", status := "success", ipAddress := "9.9.9.9",
     userAgent := "ua", country := none, createdAt := 100 }]

/-- Counterexample to C4 as stated: the user has 3 failed logins in the
trailing 15 minutes and the current IP is absent from the IPs of the
last 10 successful logins, yet the score is 30 (below 55) and the result
is not suspicious, because the source draws the last-10 set only from
the trailing 30 days and that window is empty here. -/
theorem C4_counterexample :
    3 ≤ loginRecentFailures exLogC4 1 8640000000 ∧
    "1.1.1.1" ∉ specLast10SuccessIPs exLogC4 1 ∧
    (checkSuspiciousLogin exLogC4 1 freshLock 8640000000 "1.1.1.1" "ua" none).riskScore
      = 30 ∧
    (checkSuspiciousLogin exLogC4 1 freshLock 8640000000 "1.1.1.1" "ua" none).isSuspicious
      = false := by
  refine ⟨by decide, by decide, by decide, by decide⟩

/-- C4 amended: whenever the user has at least 3 failed logins in the
trailing 15 minutes and at least one successful login in the trailing 30
days, none of whose 10 most recent IPs is the current IP, the score is
at least 55 (30 + 25) and the result is suspicious (threshold 50). -/
theorem C4_amended_risk_at_least_55
    (log : List SecEvent) (uid : Nat) (lock : LockState) (now : Millis)
    (ip ua : String) (cc : Option String)
    (hfail : 3 ≤ loginRecentFailures log uid now)
    (hne : recentSuccessfulLogins log uid now ≠ [])
    (hip : ip ∉ (recentSuccessfulLogins log uid now).map (fun e => e.ipAddress)) :
    55 ≤ (checkSuspiciousLogin log uid lock now ip ua cc).riskScore ∧
    (checkSuspiciousLogin log uid lock now ip ua cc).isSuspicious = true := by
  have h1 : loginFailureBonus log uid now = 30 := if_pos hfail
  have h2 : loginNewIPBonus log uid now ip = 25 :=
    if_pos ⟨hip, List.length_pos.mpr hne⟩
  have hscore : 55 ≤ (checkSuspiciousLogin log uid lock now ip ua cc).riskScore := by
    show 55 ≤ loginFailureBonus log uid now + loginNewIPBonus log uid now ip +
      loginNewAgentBonus log uid now ua + loginCountryBonus log uid now cc +
      loginHourBonus log uid now + loginLockBonus lock
    rw [h1, h2]
    omega
  refine ⟨hscore, ?_⟩
  show decide (50 ≤ loginFailureBonus log uid now + loginNewIPBonus log uid now ip +
    loginNewAgentBonus log uid now ua + loginCountryBonus log uid now cc +
    loginHourBonus log uid now + loginLockBonus lock) = true
  exact decide_eq_true (le_trans (by omega) hscore)

/-- A history satisfying the amended C4 hypotheses: three fresh failed
logins and one recent successful login from another IP. -/
def exLogC4w : List SecEvent :=
  [{ userId := 1, action := "login", status := "failure", ipAddress := "5.5.5.5",
     userAgent := "ua", country := none, createdAt := 8639900000 },
   { userId := 1, action := "login", status := "failure", ipAddress := "5.5.5.5",
     userAgent := "ua", country := none, createdAt := 8639910000 },
   { userId := 1, action := "login", status := "failure", ipAddress := "5.5.5.5",
     userAgent := "ua", country := none, createdAt := 8639920000 },
   { userId := 1, action := "login", status := "success", ipAddress := "2.2.2.2",
     userAgent := "ua", country := none, createdAt := 8639000000 }]

/-- Witness for the amended C4 at a concrete history. -/
theorem C4_amended_risk_at_least_55_witness :
    55 ≤ (checkSuspiciousLogin exLogC4w 1 freshLock 8640000000 "1.1.1.1" "ua" none).riskScore ∧
    (checkSuspiciousLogin exLogC4w 1 freshLock 8640000000 "1.1.1.1" "ua" none).isSuspicious
      = true :=
  C4_amended_risk_at_least_55 exLogC4w 1 freshLock 8640000000 "1.1.1.1" "ua" none
    (by decide) (by decide) (by decide)

end AuthCore

namespace AuthCore

/-- The query of `checkSuspiciousPasswordChange`: successful login or
password-change events of the user in the trailing 7 days, newest first,
limited to 5. -/
def pcRecentActivity (log : List SecEvent) (uid : Nat) (now : Millis) :
    List SecEvent :=
  (sortByTimeDesc (log.filter (fun e => e.userId == uid &&
    (e.action == "login" || e.action == "password_change") &&
    e.status == "success" &&
    decide (now - 7 * 24 * 60 * 60 * 1000 ≤ e.createdAt)))).take 5

/-- The 40-point bonus for an IP absent from the recent activity (only
with that history non-empty). -/
def pcNewIPBonus (log : List SecEvent) (uid : Nat) (now : Millis)
    (ip : String) : Nat :=
  if ip ∉ (pcRecentActivity log uid now).map (fun e => e.ipAddress) ∧
      0 < (pcRecentActivity log uid now).length then 40 else 0

/-- The count of `password_change` events of the user — of any status —
in the trailing 24 hours. -/
def pcRecentChangesCount (log : List SecEvent) (uid : Nat) (now : Millis) : Nat :=
  (log.filter (fun e => e.userId == uid && e.action == "password_change" &&
    decide (now - 24 * 60 * 60 * 1000 ≤ e.createdAt))).length

/-- The 30-point bonus when any such event exists. -/
def pcRepeatBonus (log : List SecEvent) (uid : Nat) (now : Millis) : Nat :=
  if 0 < pcRecentChangesCount log uid now then 30 else 0

/-- `checkSuspiciousPasswordChange`: the sum of the two bonuses,
suspicious at 40. -/
def checkSuspiciousPasswordChange (log : List SecEvent) (uid : Nat)
    (now : Millis) (ip : String) : Check :=
  let score := pcNewIPBonus log uid now ip + pcRepeatBonus log uid now
  { isSuspicious := decide (40 ≤ score), riskScore := score }

/-- Stated from the words of the claim, for comparison with the source:
the IPs of all successful login or password-change events of the user in
the trailing 7 days (no limit of 5). -/
def specPCWindowIPs (log : List SecEvent) (uid : Nat) (now : Millis) :
    List String :=
  (log.filter (fun e => e.userId == uid &&
    (e.action == "login" || e.action == "password_change") &&
    e.status == "success" &&
    decide (now - 7 * 24 * 60 * 60 * 1000 ≤ e.createdAt))).map
    (fun e => e.ipAddress)

/-- Stated from the words of the claim, for comparison with the source:
the number of password changes that occurred (successful
`password_change` events) in the trailing 24 hours. -/
def specPCChangesOccurred (log : List SecEvent) (uid : Nat) (now : Millis) : Nat :=
  (log.filter (fun e => e.userId == uid && e.action == "password_change" &&
    e.status == "success" &&
    decide (now - 24 * 60 * 60 * 1000 ≤ e.createdAt))).length

end AuthCore

namespace AuthCore

/-- A history on which the claim C6 as stated fails: six successful
logins in the trailing 7 days, the current IP appearing only on the
oldest of them, and a single failed password-change attempt in the
trailing 24 hours. -/
def exLogC6 : List SecEvent :=
  [{ userId := 1, action := "login", status := "success", ipAddress := "1.1.1.1",
     userAgent := "ua", country := none, createdAt := 8100000000 },
   { userId := 1, action := "login", status := "success", ipAddress := "2.2.2.2",
     userAgent := "ua", country := none, createdAt := 8200000000 },
   { userId := 1, action := "login", status := "success", ipAddress := "2.2.2.2",
     userAgent := "ua", country := none, createdAt := 8200001000 },
   { userId := 1, action := "login", status := "success", ipAddress := "2.2.2.2",
     userAgent := "ua", country := none, createdAt := 8200002000 },
   { userId := 1, action := "login", status := "success", ipAddress := "2.2.2.2",
     userAgent := "ua", country := none, createdAt := 8200003000 },
   { userId := 1, action := "login", status := "success", ipAddress := "2.2.2.2",
     userAgent := "ua", country := none, createdAt := 8200004000 },
   { userId := 1, action := "password_change", status := "failure",
     ipAddress := "1.1.1.1", userAgent := "ua", country := none,
     createdAt := 8639999000 }]

/-- Counterexample to C6 as stated: the current IP does appear among the
successful login/password-change events of the trailing 7 days, and no
password change (at most one, in fact zero successful ones) occurred in
the trailing 24 hours, yet the source scores 40 + 30 = 70 and flags the
change as suspicious — because it only consults the 5 most recent window
events and counts failed password-change attempts too. -/
theorem C6_counterexample :
    "1.1.1.1" ∈ specPCWindowIPs exLogC6 1 8640000000 ∧
    pcNewIPBonus exLogC6 1 8640000000 "1.1.1.1" = 40 ∧
    specPCChangesOccurred exLogC6 1 8640000000 ≤ 1 ∧
    pcRepeatBonus exLogC6 1 8640000000 = 30 ∧
    (checkSuspiciousPasswordChange exLogC6 1 8640000000 "1.1.1.1").riskScore = 70 ∧
    (checkSuspiciousPasswordChange exLogC6 1 8640000000 "1.1.1.1").isSuspicious
      = true := by
  refine ⟨by decide, by decide, by decide, by decide, by decide, by decide⟩

/-- C6 amended: the password-change score adds 40 exactly when the 5
most recent successful login/password-change events of the trailing 7
days are non-empty and none of them carries the current IP; it adds 30
exactly when at least one password-change event of any status (failed
attempts included) lies in the trailing 24 hours; the score is the sum
of the two bonuses; and the result is suspicious iff the score is at
least 40. -/
theorem C6_amended_pc_scoring (log : List SecEvent) (uid : Nat) (now : Millis)
    (ip : String) :
    (pcNewIPBonus log uid now ip = 40 ↔
      pcRecentActivity log uid now ≠ [] ∧
      ip ∉ (pcRecentActivity log uid now).map (fun e => e.ipAddress)) ∧
    (pcNewIPBonus log uid now ip = 40 ∨ pcNewIPBonus log uid now ip = 0) ∧
    (pcRepeatBonus log uid now = 30 ↔
      ∃ e ∈ log, e.userId = uid ∧ e.action = "password_change" ∧
        now - 24 * 60 * 60 * 1000 ≤ e.createdAt) ∧
    (pcRepeatBonus log uid now = 30 ∨ pcRepeatBonus log uid now = 0) ∧
    (checkSuspiciousPasswordChange log uid now ip).riskScore =
      pcNewIPBonus log uid now ip + pcRepeatBonus log uid now ∧
    ((checkSuspiciousPasswordChange log uid now ip).isSuspicious = true ↔
      40 ≤ (checkSuspiciousPasswordChange log uid now ip).riskScore) := by
  refine ⟨?_, ?_, ?_, ?_, rfl, ?_⟩
  · unfold pcNewIPBonus
    by_cases h : ip ∉ (pcRecentActivity log uid now).map (fun e => e.ipAddress) ∧
        0 < (pcRecentActivity log uid now).length
    · rw [if_pos h]
      exact ⟨fun _ => ⟨List.length_pos.mp h.2, h.1⟩, fun _ => rfl⟩
    · rw [if_neg h]
      constructor
      · intro h40
        exact absurd h40 (by decide)
      · rintro ⟨hne, hip⟩
        exact absurd ⟨hip, List.length_pos.mpr hne⟩ h
  · unfold pcNewIPBonus
    split
    · exact Or.inl rfl
    · exact Or.inr rfl
  · unfold pcRepeatBonus
    have hiff : 0 < pcRecentChangesCount log uid now ↔
        ∃ e ∈ log, e.userId = uid ∧ e.action = "password_change" ∧
          now - 24 * 60 * 60 * 1000 ≤ e.createdAt := by
      unfold pcRecentChangesCount
      rw [List.length_pos_iff_exists_mem]
      constructor
      · rintro ⟨e, he⟩
        obtain ⟨hel, hp⟩ := List.mem_filter.mp he
        simp only [Bool.and_eq_true, beq_iff_eq, decide_eq_true_eq] at hp
        exact ⟨e, hel, hp.1.1, hp.1.2, hp.2⟩
      · rintro ⟨e, hel, h1, h2, h3⟩
        refine ⟨e, List.mem_filter.mpr ⟨hel, ?_⟩⟩
        simp only [Bool.and_eq_true, beq_iff_eq, decide_eq_true_eq]
        exact ⟨⟨h1, h2⟩, h3⟩
    by_cases h : 0 < pcRecentChangesCount log uid now
    · rw [if_pos h]
      exact ⟨fun _ => hiff.mp h, fun _ => rfl⟩
    · rw [if_neg h]
      constructor
      · intro h30
        exact absurd h30 (by decide)
      · intro hex
        exact absurd (hiff.mpr hex) h
  · unfold pcRepeatBonus
    split
    · exact Or.inl rfl
    · exact Or.inr rfl
  · show decide (40 ≤ pcNewIPBonus log uid now ip + pcRepeatBonus log uid now)
        = true ↔ _
    rw [decide_eq_true_eq]
    exact Iff.rfl

end AuthCore

namespace AuthCore

/-! ### Devices and revocation (deviceController `revokeDevice`,
utils/deviceParser.ts)

`generateDeviceId` hashes the string `userAgent ++ "-" ++ ipAddress`
with SHA-256; the hash is modelled as the identity on that string
(SHA-256 is assumed collision-free, so equality of ids coincides with
equality of the hashed strings). -/

/-- JS `String.includes`: `sub` occurs contiguously in `s`. -/
def leadsWith : List Char → List Char → Bool
  | [], _ => true
  | _ :: _, [] => false
  | a :: as, b :: bs => a == b && leadsWith as bs

/-- Occurrence of `sub` at any position of the character list. -/
def includesChars (sub : List Char) : List Char → Bool
  | [] => leadsWith sub []
  | c :: cs => leadsWith sub (c :: cs) || includesChars sub cs

/-- `s.includes(sub)` of the user-agent sniffing. -/
def includesStr (s sub : String) : Bool := includesChars sub.toList s.toList

/-- Browser sniffing of `parseDeviceInfo`. -/
def parseBrowser (ua : String) : String :=
  if includesStr ua "Chrome" && !includesStr ua "Edg" then "Chrome"
  else if includesStr ua "Firefox" then "Firefox"
  else if includesStr ua "Safari" && !includesStr ua "Chrome" then "Safari"
  else if includesStr ua "Edg" then "Edge"
  else if includesStr ua "Opera" then "Opera"
  else "Unknown"

/-- Operating-system sniffing of `parseDeviceInfo`. -/
def parseOS (ua : String) : String :=
  if includesStr ua "Windows" then "Windows"
  else if includesStr ua "Mac OS" then "macOS"
  else if includesStr ua "Linux" then "Linux"
  else if includesStr ua "Android" then "Android"
  else if includesStr ua "iOS" then "iOS"
  else "Unknown"

/-- Device-type sniffing of `parseDeviceInfo`. -/
def parseDeviceType (ua : String) : String :=
  if includesStr ua "Mobile" || includesStr ua "Android" ||
      includesStr ua "iPhone" || includesStr ua "iPad" then
    if includesStr ua "iPad" || includesStr ua "Tablet" then "tablet" else "mobile"
  else "desktop"

/-- `parseDeviceInfo` applied to a request with the given user agent and
resolved client IP. -/
def parseDeviceInfo (ua ip : String) : DeviceInfo :=
  { userAgent := ua, ipAddress := ip, deviceType := parseDeviceType ua,
    browser := parseBrowser ua, os := parseOS ua }

/-- `generateDeviceId`: the SHA-256 input string (hash modelled as the
identity, see the section comment). -/
def generateDeviceId (di : DeviceInfo) : String :=
  di.userAgent ++ "-" ++ di.ipAddress

/-- A Device document. -/
structure Device where
  userId : Nat
  deviceId : String
  deviceName : String
  deviceType : String
  browser : String
  os : String
  ipAddress : String
  isTrusted : Bool
deriving DecidableEq, Repr

/-- The device row upserted at a successful login from the parsed
request. -/
def upsertedDevice (uid : Nat) (ua ip : String) : Device :=
  { userId := uid, deviceId := generateDeviceId (parseDeviceInfo ua ip),
    deviceName := parseBrowser ua ++ " on " ++ parseOS ua,
    deviceType := parseDeviceType ua, browser := parseBrowser ua,
    os := parseOS ua, ipAddress := ip, isTrusted := false }

/-- The session filter of the `revokeDevice` cascade: same user, same
device type, same IP. -/
def revokeMatches (uid : Nat) (d : Device) (s : Session) : Bool :=
  s.userId == uid && s.deviceInfo.deviceType == d.deviceType &&
    s.deviceInfo.ipAddress == d.ipAddress

/-- `revokeDevice`: find the device of the user, deactivate every
session matching on (user, device type, IP), delete the device row. -/
def revokeDeviceOp (devices : List Device) (sessions : List Session)
    (uid : Nat) (deviceId : String) : List Device × List Session × Bool :=
  match devices.find? (fun d => d.userId == uid && d.deviceId == deviceId) with
  | none => (devices, sessions, false)
  | some d =>
    (devices.erase d,
      sessions.map (fun s =>
        if revokeMatches uid d s then { s with isActive := false } else s),
      true)

end AuthCore

namespace AuthCore

/-- Chrome-on-Windows device of user 7. -/
def deviceA : Device := upsertedDevice 7 "Mozilla Windows Chrome" "1.2.3.4"

/-- Firefox-on-Windows device of the same user at the same IP — a
distinct device (different fingerprint), same device type and IP. -/
def deviceB : Device := upsertedDevice 7 "Mozilla Windows Firefox" "1.2.3.4"

/-- An active session belonging to the Firefox device. -/
def sessionB : Session :=
  { sessId := 2, userId := 7, refreshToken := "tokB",
    deviceInfo := parseDeviceInfo "Mozilla Windows Firefox" "1.2.3.4",
    isActive := true, lastActivity := 0, expiresAt := 999999, createdAt := 0 }

/-- Counterexample to C7 as stated: revoking the Chrome device also
deactivates the active session of the distinct Firefox device of the
same user, because the cascade matches sessions only on device type and
IP, which the two devices share. -/
theorem C7_counterexample :
    deviceB.deviceId ≠ deviceA.deviceId ∧
    generateDeviceId sessionB.deviceInfo = deviceB.deviceId ∧
    sessionB.isActive = true ∧
    (revokeDeviceOp [deviceA, deviceB] [sessionB] 7 deviceA.deviceId).2.1 =
      [{ sessionB with isActive := false }] := by
  refine ⟨by decide, by decide, by decide, by decide⟩

/-- C7 amended: revoking a found device deactivates every session of
that user whose device type and IP equal the device (in particular
every session parsed from the same user agent and IP, since the device
type is a function of the user agent), while sessions of another user
or differing from the device in type or IP are unchanged — but a
session of a different device sharing type and IP is also deactivated,
as the counterexample shows. -/
theorem C7_amended_revoke_cascade
    (devices : List Device) (sessions : List Session) (uid : Nat) (did : String)
    (d : Device)
    (hfind : devices.find? (fun d0 => d0.userId == uid && d0.deviceId == did)
      = some d) :
    (revokeDeviceOp devices sessions uid did).2.2 = true ∧
    (∀ s ∈ sessions, s.userId = uid → s.deviceInfo.deviceType = d.deviceType →
      s.deviceInfo.ipAddress = d.ipAddress →
      { s with isActive := false } ∈ (revokeDeviceOp devices sessions uid did).2.1) ∧
    (∀ s ∈ sessions,
      s.userId ≠ uid ∨ s.deviceInfo.deviceType ≠ d.deviceType ∨
        s.deviceInfo.ipAddress ≠ d.ipAddress →
      s ∈ (revokeDeviceOp devices sessions uid did).2.1) ∧
    (∀ ua ip, d = upsertedDevice uid ua ip →
      ∀ s ∈ sessions, s.userId = uid → s.deviceInfo = parseDeviceInfo ua ip →
        { s with isActive := false } ∈ (revokeDeviceOp devices sessions uid did).2.1) := by
  have hop : revokeDeviceOp devices sessions uid did =
      (devices.erase d,
        sessions.map (fun s =>
          if revokeMatches uid d s then { s with isActive := false } else s),
        true) := by
    unfold revokeDeviceOp
    rw [hfind]
  have hdeact : ∀ s ∈ sessions, s.userId = uid →
      s.deviceInfo.deviceType = d.deviceType →
      s.deviceInfo.ipAddress = d.ipAddress →
      { s with isActive := false } ∈ (revokeDeviceOp devices sessions uid did).2.1 := by
    intro s hs h1 h2 h3
    rw [hop]
    refine List.mem_map.mpr ⟨s, hs, ?_⟩
    have hm : revokeMatches uid d s = true := by
      unfold revokeMatches
      simp [h1, h2, h3]
    rw [if_pos hm]
  refine ⟨by rw [hop], hdeact, ?_, ?_⟩
  · intro s hs hdiff
    rw [hop]
    refine List.mem_map.mpr ⟨s, hs, ?_⟩
    have hm : ¬ (revokeMatches uid d s = true) := by
      intro hm
      unfold revokeMatches at hm
      simp only [Bool.and_eq_true, beq_iff_eq] at hm
      rcases hdiff with h | h | h
      · exact h hm.1.1
      · exact h hm.1.2
      · exact h hm.2
    rw [if_neg hm]
  · intro ua ip hd s hs huid hdi
    apply hdeact s hs huid
    · rw [hdi, hd]
      rfl
    · rw [hdi, hd]
      rfl

/-- An active session of the Chrome device itself. -/
def sessionA : Session :=
  { sessId := 3, userId := 7, refreshToken := "tokA",
    deviceInfo := parseDeviceInfo "Mozilla Windows Chrome" "1.2.3.4",
    isActive := true, lastActivity := 5, expiresAt := 99, createdAt := 0 }

/-- Witness for the amended C7 on a one-device, one-session registry. -/
theorem C7_amended_revoke_cascade_witness :
    (revokeDeviceOp [deviceA] [sessionA] 7 deviceA.deviceId).2.2 = true ∧
    (∀ s ∈ [sessionA], s.userId = 7 → s.deviceInfo.deviceType = deviceA.deviceType →
      s.deviceInfo.ipAddress = deviceA.ipAddress →
      { s with isActive := false } ∈
        (revokeDeviceOp [deviceA] [sessionA] 7 deviceA.deviceId).2.1) ∧
    (∀ s ∈ [sessionA],
      s.userId ≠ 7 ∨ s.deviceInfo.deviceType ≠ deviceA.deviceType ∨
        s.deviceInfo.ipAddress ≠ deviceA.ipAddress →
      s ∈ (revokeDeviceOp [deviceA] [sessionA] 7 deviceA.deviceId).2.1) ∧
    (∀ ua ip, deviceA = upsertedDevice 7 ua ip →
      ∀ s ∈ [sessionA], s.userId = 7 → s.deviceInfo = parseDeviceInfo ua ip →
        { s with isActive := false } ∈
          (revokeDeviceOp [deviceA] [sessionA] 7 deviceA.deviceId).2.1) :=
  C7_amended_revoke_cascade [deviceA] [sessionA] 7 deviceA.deviceId deviceA
    (by decide)

end AuthCore

namespace AuthCore

/-! ### Enumeration-sensitive responses (sessionController
`forgotPassword`, `part_002` `resendVerificationEmail`)

Each handler is a pure function from the facts it branches on (whether
a user with the email exists, whether that user is already verified,
whether the outbound email call succeeds) to the HTTP status and
message it returns. -/

/-- Caller-visible response of a handler. -/
structure ApiResponse where
  status : Nat
  success : Bool
  message : String
deriving DecidableEq, Repr

/-- `forgotPassword`: the same 200 response whether or not the account
exists, except that a failing email collaborator surfaces as a 500 when
the account exists. -/
def forgotPasswordResponse (userExists emailSendOk : Bool) : ApiResponse :=
  if userExists = false then
    { status := 200, success := true,
      message := "If the email exists, a password reset link has been sent." }
  else if emailSendOk = false then
    { status := 500, success := false,
      message := "Failed to send password reset email" }
  else
    { status := 200, success := true,
      message := "If the email exists, a password reset link has been sent." }

/-- `resendVerificationEmail`: a generic 200 when the account does not
exist, but a 400 for an existing verified account and a distinct success
message for an existing unverified one. -/
def resendVerificationResponse (userExists userVerified emailSendOk : Bool) :
    ApiResponse :=
  if userExists = false then
    { status := 200, success := true,
      message := "If the email exists, a verification link has been sent." }
  else if userVerified = true then
    { status := 400, success := false, message := "Email is already verified" }
  else if emailSendOk = false then
    { status := 500, success := false,
      message := "Failed to send verification email" }
  else
    { status := 200, success := true,
      message := "Verification email sent successfully" }

end AuthCore

namespace AuthCore

/-- C8 evaluated at the failing input: for the resend-verification
handler the response differs between the existing-account and
missing-account runs (distinct 200 messages for an unverified account,
a 400 for a verified one), so the account presence is observable; the
forgot-password handler does return identical responses when the email
collaborator succeeds. -/
theorem C8_resend_verification_leaks_existence :
    resendVerificationResponse true false true ≠
      resendVerificationResponse false false true ∧
    resendVerificationResponse true true true ≠
      resendVerificationResponse false true true ∧
    (resendVerificationResponse true true true).status = 400 ∧
    forgotPasswordResponse true true = forgotPasswordResponse false true := by
  refine ⟨by decide, by decide, by decide, by decide⟩

end AuthCore
